import Mathlib

/-!
Verification of the renewables-forecast yield-estimation pipeline.

This file is a shallow embedding, over exact rationals and character
lists, of the core of the repository:

* `src/backend/app/calculators/solar.py` (solar yield calculator),
* `src/backend/app/services/climate.py` (climate data provider),
* `src/backend/app/services/postcode.py` (location resolver),
* `src/backend/app/schemas/calculation.py` (request validation), and
* `src/backend/app/api/v1/calculate.py` (the pipeline endpoint).

Python floats are modelled as exact rationals, `round(x, n)` as exact
round-half-even at `n` decimal places, and strings as `List Char`
(Python's `str.upper`/`str.lower` restricted to the ASCII range that
postcodes and orientation names use).  External HTTP calls are modelled
by passing the upstream response (or the service outcome) as an explicit
argument; the in-memory caches and the database write, which no claim
touches, are omitted.
-/

namespace RF

/-! ## Rounding: Python's `round` over exact rationals -/

/-- Python's `round` to an integer: round-half-even (banker's rounding). -/
def pyRound (q : ℚ) : ℤ :=
  if q - ⌊q⌋ < 1/2 then ⌊q⌋
  else if 1/2 < q - ⌊q⌋ then ⌊q⌋ + 1
  else if ⌊q⌋ % 2 = 0 then ⌊q⌋ else ⌊q⌋ + 1

/-- Python's `round(q, n)`: round-half-even at `n` decimal places. -/
def roundTo (n : ℕ) (q : ℚ) : ℚ := (pyRound (q * 10 ^ n) : ℚ) / 10 ^ n

theorem pyRound_le (q : ℚ) : (pyRound q : ℚ) ≤ q + 1/2 := by
  have h1 := Int.floor_le q
  have h2 := Int.lt_floor_add_one q
  unfold pyRound
  split
  · linarith
  · split
    · push_cast; linarith
    · split
      · linarith
      · push_cast
        have : ¬ (q - ⌊q⌋ < 1/2) := by assumption
        linarith [le_of_not_lt this]

theorem le_pyRound (q : ℚ) : q - 1/2 ≤ (pyRound q : ℚ) := by
  have h1 := Int.floor_le q
  have h2 := Int.lt_floor_add_one q
  unfold pyRound
  split
  · linarith
  · split
    · push_cast; linarith
    · split
      · have hle : ¬ (1/2 < q - ⌊q⌋) := by assumption
        linarith [le_of_not_lt hle]
      · push_cast; linarith

theorem pyRound_intCast (k : ℤ) : pyRound (k : ℚ) = k := by
  unfold pyRound
  rw [Int.floor_intCast]
  rw [if_pos (by norm_num)]

theorem pyRound_nonneg (q : ℚ) (h : 0 ≤ q) : 0 ≤ pyRound q := by
  have h1 := Int.floor_nonneg.mpr h
  unfold pyRound
  split
  · exact h1
  · split
    · omega
    · split
      · exact h1
      · omega

/-- If `q < a + 1/2` for an integer bound `a`, then `pyRound q ≤ a`. -/
theorem pyRound_le_int (q : ℚ) (a : ℤ) (h : q < (a : ℚ) + 1/2) : pyRound q ≤ a := by
  have h1 : (pyRound q : ℚ) ≤ q + 1/2 := pyRound_le q
  have h2 : (pyRound q : ℚ) < (a : ℚ) + 1 := by linarith
  exact_mod_cast Int.lt_add_one_iff.mp (by exact_mod_cast h2)

/-- If `a - 1/2 < q` for an integer bound `a`, then `a ≤ pyRound q`. -/
theorem int_le_pyRound (q : ℚ) (a : ℤ) (h : (a : ℚ) - 1/2 < q) : a ≤ pyRound q := by
  have h1 : q - 1/2 ≤ (pyRound q : ℚ) := le_pyRound q
  have h2 : (a : ℚ) - 1 < (pyRound q : ℚ) := by linarith
  have h3 : a - 1 < pyRound q := by exact_mod_cast h2
  omega

theorem roundTo_le (n : ℕ) (q : ℚ) : roundTo n q ≤ q + 1 / (2 * 10 ^ n) := by
  have hp : (0 : ℚ) < 10 ^ n := by positivity
  have h := pyRound_le (q * 10 ^ n)
  unfold roundTo
  rw [div_le_iff₀ hp]
  have : (q + 1 / (2 * 10 ^ n)) * 10 ^ n = q * 10 ^ n + 1/2 := by
    field_simp; ring
  rw [this]
  exact h

theorem le_roundTo (n : ℕ) (q : ℚ) : q - 1 / (2 * 10 ^ n) ≤ roundTo n q := by
  have hp : (0 : ℚ) < 10 ^ n := by positivity
  have h := le_pyRound (q * 10 ^ n)
  unfold roundTo
  rw [le_div_iff₀ hp]
  have : (q - 1 / (2 * 10 ^ n)) * 10 ^ n = q * 10 ^ n - 1/2 := by
    field_simp; ring
  rw [this]
  exact h

theorem roundTo_nonneg (n : ℕ) (q : ℚ) (h : 0 ≤ q) : 0 ≤ roundTo n q := by
  have hp : (0 : ℚ) < 10 ^ n := by positivity
  have h1 : 0 ≤ pyRound (q * 10 ^ n) := pyRound_nonneg _ (by positivity)
  unfold roundTo
  positivity

/-- `roundTo n` fixes rationals that are already exact `n`-decimal values. -/
theorem roundTo_eq_self (n : ℕ) (q : ℚ) (k : ℤ) (h : q * 10 ^ n = (k : ℚ)) :
    roundTo n q = q := by
  have hp : (0 : ℚ) < 10 ^ n := by positivity
  unfold roundTo
  rw [h, pyRound_intCast]
  field_simp at h ⊢
  linarith [h]

/-- Every output of `roundTo n` is an exact `n`-decimal value. -/
theorem roundTo_mul_pow (n : ℕ) (q : ℚ) :
    roundTo n q * 10 ^ n = ((pyRound (q * 10 ^ n) : ℤ) : ℚ) := by
  have hp : (0 : ℚ) < 10 ^ n := by positivity
  unfold roundTo
  field_simp

/-- `roundTo n q ≤ a / 10^n` as soon as `q` is below the rounding threshold. -/
theorem roundTo_le_div (n : ℕ) (q : ℚ) (a : ℤ) (h : q * 10 ^ n < (a : ℚ) + 1/2) :
    roundTo n q ≤ (a : ℚ) / 10 ^ n := by
  have hp : (0 : ℚ) < 10 ^ n := by positivity
  have h1 : pyRound (q * 10 ^ n) ≤ a := pyRound_le_int _ _ h
  unfold roundTo
  apply (div_le_div_iff_of_pos_right hp).mpr
  exact_mod_cast h1

theorem div_le_roundTo (n : ℕ) (q : ℚ) (a : ℤ) (h : (a : ℚ) - 1/2 < q * 10 ^ n) :
    (a : ℚ) / 10 ^ n ≤ roundTo n q := by
  have hp : (0 : ℚ) < 10 ^ n := by positivity
  have h1 : a ≤ pyRound (q * 10 ^ n) := int_le_pyRound _ _ h
  unfold roundTo
  apply (div_le_div_iff_of_pos_right hp).mpr
  exact_mod_cast h1

/-! ## Characters and strings: Python `str.upper` / `str.lower` (ASCII) -/

/-- Python `str.upper` on one character, restricted to ASCII. -/
def pyUpper (c : Char) : Char :=
  if 97 ≤ c.toNat ∧ c.toNat ≤ 122 then Char.ofNat (c.toNat - 32) else c

/-- Python `str.lower` on one character, restricted to ASCII. -/
def pyLower (c : Char) : Char :=
  if 65 ≤ c.toNat ∧ c.toNat ≤ 90 then Char.ofNat (c.toNat + 32) else c

theorem toNat_ofNat_valid (n : ℕ) (h : n < 55296) : (Char.ofNat n).toNat = n := by
  unfold Char.ofNat
  rw [dif_pos (Or.inl h)]
  simp [Char.toNat, Char.ofNatAux, UInt32.toNat, BitVec.toNat_ofNatLt]

theorem char_toNat_lt (c : Char) : c.toNat < 1114112 := by
  rcases c.valid with h | ⟨_, h⟩
  · exact Nat.lt_trans h (by norm_num)
  · exact h

theorem char_eq_of_toNat_eq {c d : Char} (h : c.toNat = d.toNat) : c = d := by
  apply Char.ext
  apply UInt32.ext
  simpa [Char.toNat, UInt32.toNat] using h

theorem pyUpper_toNat (c : Char) (h : 97 ≤ c.toNat ∧ c.toNat ≤ 122) :
    (pyUpper c).toNat = c.toNat - 32 := by
  unfold pyUpper
  rw [if_pos h]
  exact toNat_ofNat_valid _ (by omega)

theorem pyLower_toNat (c : Char) (h : 65 ≤ c.toNat ∧ c.toNat ≤ 90) :
    (pyLower c).toNat = c.toNat + 32 := by
  unfold pyLower
  rw [if_pos h]
  exact toNat_ofNat_valid _ (by omega)

theorem pyUpper_idem (c : Char) : pyUpper (pyUpper c) = pyUpper c := by
  by_cases h : 97 ≤ c.toNat ∧ c.toNat ≤ 122
  · have h2 := pyUpper_toNat c h
    conv_lhs => rw [pyUpper]
    rw [if_neg (by omega)]
  · unfold pyUpper
    rw [if_neg h, if_neg h]

theorem pyUpper_pyLower (c : Char) : pyUpper (pyLower c) = pyUpper c := by
  by_cases h : 65 ≤ c.toNat ∧ c.toNat ≤ 90
  · have h2 := pyLower_toNat c h
    have h3 : 97 ≤ (pyLower c).toNat ∧ (pyLower c).toNat ≤ 122 := by omega
    have h4 := pyUpper_toNat _ h3
    have h5 : (pyUpper (pyLower c)).toNat = c.toNat := by omega
    have h6 : pyUpper c = c := by
      unfold pyUpper
      rw [if_neg (by omega)]
    rw [h6]
    apply char_eq_of_toNat_eq h5
  · have h2 : pyLower c = c := by
      unfold pyLower
      rw [if_neg h]
    rw [h2]

theorem toNat_space : (' ' : Char).toNat = 32 := by decide

theorem pyUpper_ne_space (c : Char) (h : c ≠ ' ') : pyUpper c ≠ ' ' := by
  by_cases hc : 97 ≤ c.toNat ∧ c.toNat ≤ 122
  · intro he
    have h2 := pyUpper_toNat c hc
    rw [he, toNat_space] at h2
    omega
  · unfold pyUpper
    rw [if_neg hc]
    exact h

theorem pyLower_eq_space_iff (c : Char) : pyLower c = ' ' ↔ c = ' ' := by
  constructor
  · intro he
    by_cases hc : 65 ≤ c.toNat ∧ c.toNat ≤ 90
    · have h2 := pyLower_toNat c hc
      rw [he, toNat_space] at h2
      omega
    · unfold pyLower at he
      rwa [if_neg hc] at he
  · intro he
    subst he
    decide

/-! ## Location resolver and request-validator normalization

`lookup_postcode` (src/backend/app/services/postcode.py, line 53) normalizes
with `postcode.replace(" ", "").upper()`; the request validator
`CalculationRequest.validate_postcode` (src/backend/app/schemas/calculation.py,
lines 44-51) applies the same strip-and-uppercase step and then, when the
result has at least 5 characters, reinserts a single space before the final
3 characters. -/

/-- `postcode.replace(" ", "").upper()`: shared strip-spaces-then-uppercase step. -/
def stripUpper (s : List Char) : List Char :=
  (s.filter (fun c => c != ' ')).map pyUpper

/-- Normalization performed inside `lookup_postcode` (services/postcode.py). -/
def lookupNormalize (s : List Char) : List Char := stripUpper s

/-- `CalculationRequest.validate_postcode` (schemas/calculation.py). -/
def validate_postcode (s : List Char) : List Char :=
  let n := stripUpper s
  if 5 ≤ n.length then n.take (n.length - 3) ++ ' ' :: n.drop (n.length - 3) else n

theorem mem_stripUpper_ne_space (s : List Char) (c : Char) (h : c ∈ stripUpper s) :
    c ≠ ' ' := by
  unfold stripUpper at h
  rcases List.mem_map.mp h with ⟨d, hd, rfl⟩
  have := List.of_mem_filter hd
  exact pyUpper_ne_space d (by simpa using this)

theorem stripUpper_map_pyUpper (s : List Char) :
    (stripUpper s).map pyUpper = stripUpper s := by
  unfold stripUpper
  rw [List.map_map]
  apply List.map_congr_left
  intro c _
  exact pyUpper_idem c

theorem stripUpper_filter (s : List Char) :
    (stripUpper s).filter (fun c => c != ' ') = stripUpper s := by
  apply List.filter_eq_self.mpr
  intro c hc
  simpa using mem_stripUpper_ne_space s c hc

theorem stripUpper_idem (s : List Char) : stripUpper (stripUpper s) = stripUpper s := by
  conv_lhs => rw [stripUpper]
  rw [stripUpper_filter, stripUpper_map_pyUpper]

theorem stripUpper_append (s t : List Char) :
    stripUpper (s ++ t) = stripUpper s ++ stripUpper t := by
  unfold stripUpper
  rw [List.filter_append, List.map_append]

theorem stripUpper_space_cons (s : List Char) :
    stripUpper (' ' :: s) = stripUpper s := by
  unfold stripUpper
  simp

theorem stripUpper_eq_self_of (l : List Char) (h1 : ∀ c ∈ l, c ≠ ' ')
    (h2 : l.map pyUpper = l) : stripUpper l = l := by
  unfold stripUpper
  rw [List.filter_eq_self.mpr (by intro c hc; simpa using h1 c hc), h2]

theorem stripUpper_take (s : List Char) (k : ℕ) :
    stripUpper ((stripUpper s).take k) = (stripUpper s).take k := by
  apply stripUpper_eq_self_of
  · intro c hc
    exact mem_stripUpper_ne_space s c (List.mem_of_mem_take hc)
  · rw [List.map_take]
    congr 1
    exact stripUpper_map_pyUpper s

theorem stripUpper_drop (s : List Char) (k : ℕ) :
    stripUpper ((stripUpper s).drop k) = (stripUpper s).drop k := by
  apply stripUpper_eq_self_of
  · intro c hc
    exact mem_stripUpper_ne_space s c (List.mem_of_mem_drop hc)
  · rw [List.map_drop]
    congr 1
    exact stripUpper_map_pyUpper s

theorem stripUpper_validate_postcode (s : List Char) :
    stripUpper (validate_postcode s) = stripUpper s := by
  unfold validate_postcode
  by_cases h : 5 ≤ (stripUpper s).length
  · rw [if_pos h]
    rw [stripUpper_append, stripUpper_space_cons]
    rw [stripUpper_take, stripUpper_drop, List.take_append_drop]
  · rw [if_neg h]
    exact stripUpper_idem s

theorem validate_postcode_idem (s : List Char) :
    validate_postcode (validate_postcode s) = validate_postcode s := by
  by_cases h : 5 ≤ (stripUpper s).length
  · conv_lhs => rw [validate_postcode, stripUpper_validate_postcode]
    rw [if_pos h]
    conv_rhs => rw [validate_postcode]
    rw [if_pos h]
  · conv_lhs => rw [validate_postcode, stripUpper_validate_postcode]
    rw [if_neg h]
    conv_rhs => rw [validate_postcode]
    rw [if_neg h]

theorem lookupNormalize_idem (s : List Char) :
    lookupNormalize (lookupNormalize s) = lookupNormalize s :=
  stripUpper_idem s

theorem stripUpper_map_pyLower (s : List Char) :
    stripUpper (s.map pyLower) = stripUpper s := by
  unfold stripUpper
  rw [List.filter_map]
  have hf : (fun c => c != ' ') ∘ pyLower = (fun c => c != ' ') := by
    funext c
    by_cases h : c = ' '
    · subst h; decide
    · have h1 : pyLower c ≠ ' ' := fun he => h ((pyLower_eq_space_iff c).mp he)
      show (pyLower c != ' ') = (c != ' ')
      rw [bne_iff_ne.mpr h1, bne_iff_ne.mpr h]
  rw [hf, List.map_map]
  apply List.map_congr_left
  intro c _
  exact pyUpper_pyLower c

theorem stripUpper_filter_space (s : List Char) :
    stripUpper (s.filter (fun c => c != ' ')) = stripUpper s := by
  unfold stripUpper
  congr 1
  rw [List.filter_filter]
  apply List.filter_congr
  intro c _
  exact Bool.and_self _

/-! ## Exceptions raised by the two services

The code defines exactly three exception classes:
`ClimateAPIError` (services/climate.py) and
`PostcodeNotFoundError`, `PostcodeAPIError` (services/postcode.py). -/

inductive AppException where
  | climateAPIError (msg : String)
  | postcodeNotFoundError (msg : String)
  | postcodeAPIError (msg : String)
deriving DecidableEq

/-- The exception class of an exception, disregarding its message. -/
inductive ExnKind where
  | climateAPI
  | postcodeNotFound
  | postcodeAPI
deriving DecidableEq

def AppException.kind : AppException → ExnKind
  | .climateAPIError _ => .climateAPI
  | .postcodeNotFoundError _ => .postcodeNotFound
  | .postcodeAPIError _ => .postcodeAPI

/-! ## Climate data provider (src/backend/app/services/climate.py) -/

/-- `SolarClimateData` (services/climate.py). -/
structure SolarClimateData where
  latitude : ℚ
  longitude : ℚ
  monthly_ghi_kwh_m2_day : List ℚ
  annual_ghi_kwh_m2 : ℚ
  source : String

/-- The fixed month-key order used to read the NASA POWER payload
(services/climate.py, lines 90-91). -/
def month_order : List (List Char) :=
  ["JAN".toList, "FEB".toList, "MAR".toList, "APR".toList, "MAY".toList,
   "JUN".toList, "JUL".toList, "AUG".toList, "SEP".toList, "OCT".toList,
   "NOV".toList, "DEC".toList]

/-- The fixed days-in-month table (28.25 for February), shared verbatim by
services/climate.py line 96 and calculators/solar.py line 146. -/
def days_in_month : List ℚ :=
  [31, 28.25, 31, 30, 31, 30, 31, 31, 30, 31, 30, 31]

/-- The upstream NASA POWER response, as the service observes it:
an HTTP status together with the parsed `ALLSKY_SFC_SW_DWN` monthly map
(`none` models a payload on which `response.json()`, or the subsequent
key access, raises, i.e. a malformed body), or a transport failure. -/
inductive NasaPowerResponse where
  | http (status : ℕ) (payload : Option (List (List Char × ℚ)))
  | timeout
  | requestError (msg : String)

/-- `get_solar_climate_data` (services/climate.py, lines 40-117), with the
upstream response passed explicitly and the in-memory cache omitted. -/
def get_solar_climate_data (latitude longitude : ℚ) (resp : NasaPowerResponse) :
    Except AppException SolarClimateData :=
  match resp with
  | .timeout => .error (.climateAPIError "NASA POWER API request timed out")
  | .requestError m =>
      .error (.climateAPIError ("NASA POWER API request failed: " ++ m))
  | .http status payload =>
    if status ≠ 200 then
      .error (.climateAPIError "NASA POWER API returned non-200 status")
    else
      match payload with
      | none => .error (.climateAPIError "Failed to parse NASA POWER response")
      | some monthly_data =>
        if monthly_data.isEmpty then
          .error (.climateAPIError "No GHI data returned from NASA POWER")
        else
          let monthly_ghi := month_order.map (fun m => (monthly_data.lookup m).getD 0)
          let annual_ghi :=
            ((monthly_ghi.zip days_in_month).map (fun p => p.1 * p.2)).sum
          .ok { latitude := latitude
                longitude := longitude
                monthly_ghi_kwh_m2_day := monthly_ghi
                annual_ghi_kwh_m2 := annual_ghi
                source := "NASA_POWER" }

/-! ## Location resolver (src/backend/app/services/postcode.py) -/

/-- `Location` (services/postcode.py). -/
structure Location where
  postcode : List Char
  latitude : ℚ
  longitude : ℚ
  region : String

/-- The parsed Postcodes.io JSON body: the top-level `status` field and the
`result` object.  (The fields the code reads with `.get` defaults are modelled
as options; latitude/longitude are modelled as present, since no claim
exercises their absence.) -/
structure PostcodeBody where
  status : ℕ
  result_postcode : Option (List Char)
  result_latitude : ℚ
  result_longitude : ℚ
  result_region : Option String
  result_admin_district : Option String

/-- The upstream Postcodes.io response as the service observes it. -/
inductive PostcodesIoResponse where
  | http (status : ℕ) (body : PostcodeBody)
  | timeout
  | requestError (msg : String)

/-- `lookup_postcode` (services/postcode.py, lines 38-94), with the upstream
response passed explicitly and the in-memory cache omitted; the postcode is
normalized with `lookupNormalize` for the request URL. -/
def lookup_postcode (postcode : List Char) (resp : PostcodesIoResponse) :
    Except AppException Location :=
  let _normalized := lookupNormalize postcode
  match resp with
  | .timeout => .error (.postcodeAPIError "Postcode lookup timed out")
  | .requestError m => .error (.postcodeAPIError ("Postcode lookup failed: " ++ m))
  | .http status body =>
    if status = 404 then .error (.postcodeNotFoundError "Postcode not found")
    else if status ≠ 200 then
      .error (.postcodeAPIError "Postcodes.io API returned non-200 status")
    else if body.status ≠ 200 then
      .error (.postcodeNotFoundError "Postcode not found")
    else
      .ok { postcode := body.result_postcode.getD postcode
            latitude := body.result_latitude
            longitude := body.result_longitude
            region := body.result_region.getD
              (body.result_admin_district.getD "Unknown") }

/-! ## Solar yield calculator (src/backend/app/calculators/solar.py) -/

/-- `ORIENTATION_FACTORS` (calculators/solar.py, lines 30-39). -/
def ORIENTATION_FACTORS : List (List Char × ℚ) :=
  [("south".toList, 1.00),
   ("south-east".toList, 0.97),
   ("south-west".toList, 0.97),
   ("east".toList, 0.88),
   ("west".toList, 0.88),
   ("north-east".toList, 0.75),
   ("north-west".toList, 0.75),
   ("north".toList, 0.55)]

/-- `ORIENTATION_FACTORS.get(panel_orientation.lower(), 0.88)`
(calculators/solar.py, line 118). -/
def orientation_factor_of (panel_orientation : List Char) : ℚ :=
  (ORIENTATION_FACTORS.lookup (panel_orientation.map pyLower)).getD 0.88

/-- `calculate_optimal_tilt` (calculators/solar.py, lines 42-57). -/
def calculate_optimal_tilt (latitude : ℚ) : ℚ :=
  roundTo 1 (max 0 (latitude - 10))

/-- `calculate_tilt_factor` (calculators/solar.py, lines 60-82). -/
def calculate_tilt_factor (tilt optimal_tilt : ℚ) : ℚ :=
  let deviation := |tilt - optimal_tilt|
  if deviation = 0 then 1.0
  else roundTo 3 (max 0.7 (1.0 - 0.005 * deviation))

/-- The assumptions record built by `calculate_solar_output`
(calculators/solar.py, lines 165-178). -/
structure Assumptions where
  optimal_tilt_degrees : ℚ
  actual_tilt_degrees : ℚ
  orientation : List Char
  orientation_factor : ℚ
  tilt_factor : ℚ
  system_efficiency : ℚ
  inverter_efficiency : ℚ
  temperature_coefficient : ℚ
  soiling_losses : ℚ
  shading_factor : ℚ
  climate_source : String

/-- `SolarOutput` (calculators/solar.py, lines 8-23). -/
structure SolarOutput where
  annual_kwh : ℚ
  monthly_kwh : List ℚ
  capacity_factor : ℚ
  kwh_per_kwp : ℚ
  assumptions : Assumptions

/-- `calculate_solar_output` (calculators/solar.py, lines 85-186).
The fixed factors 0.96/0.98/0.99/0.99 are the code's temperature,
soiling, cable and mismatch coefficients; 0.85 is the fixed
performance ratio. -/
def calculate_solar_output (capacity_kwp : ℚ) (climate_data : SolarClimateData)
    (latitude : ℚ) (panel_orientation : List Char)
    (panel_tilt_degrees : Option ℚ) (shading_factor : ℚ)
    (inverter_efficiency : ℚ) : SolarOutput :=
  let optimal_tilt := calculate_optimal_tilt latitude
  let tilt := panel_tilt_degrees.getD optimal_tilt
  let orientation_factor := orientation_factor_of panel_orientation
  let tilt_factor := calculate_tilt_factor tilt optimal_tilt
  let system_efficiency :=
    orientation_factor * tilt_factor * inverter_efficiency *
      0.96 * 0.98 * 0.99 * 0.99 * shading_factor
  let monthly_kwh :=
    (climate_data.monthly_ghi_kwh_m2_day.zip days_in_month).map
      (fun p => roundTo 2 (capacity_kwp * p.1 * p.2 * system_efficiency * 0.85))
  let annual_kwh := monthly_kwh.sum
  { annual_kwh := roundTo 2 annual_kwh
    monthly_kwh := monthly_kwh
    capacity_factor := roundTo 4 (annual_kwh / (capacity_kwp * 8760))
    kwh_per_kwp := roundTo 1 (annual_kwh / capacity_kwp)
    assumptions :=
      { optimal_tilt_degrees := optimal_tilt
        actual_tilt_degrees := tilt
        orientation := panel_orientation
        orientation_factor := roundTo 3 orientation_factor
        tilt_factor := roundTo 3 tilt_factor
        system_efficiency := roundTo 3 system_efficiency
        inverter_efficiency := inverter_efficiency
        temperature_coefficient := 0.96
        soiling_losses := roundTo 3 (1 - 0.98)
        shading_factor := shading_factor
        climate_source := climate_data.source } }

/-! ## The pipeline endpoint (src/backend/app/api/v1/calculate.py) -/

/-- The `error` codes of the HTTPException details raised by
`calculate_energy`. -/
inductive ErrorCode where
  | INVALID_POSTCODE
  | POSTCODE_SERVICE_ERROR
  | CLIMATE_API_ERROR
  | BAD_REQUEST
  | NOT_IMPLEMENTED
  | INTERNAL_SERVER_ERROR
deriving DecidableEq

/-- An HTTPException as raised by the endpoint. -/
structure HttpError where
  status : ℕ
  code : ErrorCode
  message : String

inductive SystemType where
  | solar
  | wind
deriving DecidableEq

/-- `SolarSpecs` (schemas/calculation.py, lines 9-24). -/
structure SolarSpecs where
  capacity_kwp : ℚ
  panel_orientation : List Char
  panel_tilt_degrees : Option ℚ
  shading_factor : ℚ
  inverter_efficiency : ℚ

/-- `WindSpecs` (schemas/calculation.py, lines 27-32). -/
structure WindSpecs where
  rated_power_kw : ℚ
  hub_height_m : ℚ
  turbine_model : Option String

inductive SystemSpecs where
  | solar (s : SolarSpecs)
  | wind (w : WindSpecs)

/-- `CalculationRequest` (schemas/calculation.py, lines 35-51). -/
structure CalculationRequest where
  postcode : List Char
  system_type : SystemType
  system_specs : SystemSpecs

/-- The pipeline outcome, with bookkeeping of which downstream steps were
reached: `climateCalled` records that the climate provider was invoked and
`calculatorCalled` that the solar calculator was invoked. -/
structure PipelineResult where
  outcome : Except HttpError SolarOutput
  climateCalled : Bool
  calculatorCalled : Bool

/-- `calculate_energy` (api/v1/calculate.py, lines 25-197), with the two
services passed as explicit capabilities and the database write omitted.
A service exception not caught by the step's `except` clauses falls through
to the endpoint's generic handler (HTTP 500 INTERNAL_SERVER_ERROR). -/
def calculate_energy (req : CalculationRequest)
    (postcodeSvc : List Char → Except AppException Location)
    (climateSvc : ℚ → ℚ → Except AppException SolarClimateData) :
    PipelineResult :=
  match postcodeSvc req.postcode with
  | .error (.postcodeNotFoundError m) =>
      ⟨.error ⟨404, .INVALID_POSTCODE, m⟩, false, false⟩
  | .error (.postcodeAPIError m) =>
      ⟨.error ⟨503, .POSTCODE_SERVICE_ERROR, m⟩, false, false⟩
  | .error (.climateAPIError m) =>
      ⟨.error ⟨500, .INTERNAL_SERVER_ERROR, m⟩, false, false⟩
  | .ok location =>
    match climateSvc location.latitude location.longitude with
    | .error (.climateAPIError m) =>
        ⟨.error ⟨503, .CLIMATE_API_ERROR, m⟩, true, false⟩
    | .error (.postcodeNotFoundError m) =>
        ⟨.error ⟨500, .INTERNAL_SERVER_ERROR, m⟩, true, false⟩
    | .error (.postcodeAPIError m) =>
        ⟨.error ⟨500, .INTERNAL_SERVER_ERROR, m⟩, true, false⟩
    | .ok climate_data =>
      match req.system_type, req.system_specs with
      | .solar, .solar specs =>
          ⟨.ok (calculate_solar_output specs.capacity_kwp climate_data
                  location.latitude specs.panel_orientation
                  specs.panel_tilt_degrees specs.shading_factor
                  specs.inverter_efficiency),
           true, true⟩
      | .solar, .wind _ =>
          ⟨.error ⟨400, .BAD_REQUEST, "Solar system requires SolarSpecs"⟩,
           true, false⟩
      | .wind, _ =>
          ⟨.error ⟨501, .NOT_IMPLEMENTED, "Wind turbine calculations coming soon!"⟩,
           true, false⟩

/-! ## Shared helper lemmas about the calculator's factors -/

/-- The tilt factor is uniformly the 3-decimal rounding of the penalty
formula (the `deviation == 0` early return agrees with it). -/
theorem tilt_factor_eq (tilt o : ℚ) :
    calculate_tilt_factor tilt o = roundTo 3 (max 0.7 (1.0 - 0.005 * |tilt - o|)) := by
  unfold calculate_tilt_factor
  by_cases hd : |tilt - o| = 0
  · rw [if_pos hd, hd]
    rw [show (1.0 : ℚ) - 0.005 * 0 = 1 by norm_num]
    rw [max_eq_right (by norm_num)]
    rw [roundTo_eq_self 3 1 1000 (by norm_num)]
    norm_num
  · rw [if_neg hd]

theorem tilt_factor_lower (tilt o : ℚ) : 0.7 ≤ calculate_tilt_factor tilt o := by
  rw [tilt_factor_eq]
  have h1 : (0.7 : ℚ) ≤ max 0.7 (1.0 - 0.005 * |tilt - o|) := le_max_left _ _
  have h2 := div_le_roundTo 3 (max 0.7 (1.0 - 0.005 * |tilt - o|)) 700 (by push_cast; nlinarith)
  calc (0.7 : ℚ) = (700 : ℤ) / 10 ^ 3 := by norm_num
  _ ≤ _ := h2

theorem tilt_factor_upper (tilt o : ℚ) : calculate_tilt_factor tilt o ≤ 1 := by
  have habs : (0 : ℚ) ≤ |tilt - o| := abs_nonneg _
  have h1 : max 0.7 (1.0 - 0.005 * |tilt - o|) ≤ 1 := by
    apply max_le (by norm_num) (by nlinarith)
  have h2 := roundTo_le_div 3 (max 0.7 (1.0 - 0.005 * |tilt - o|)) 1000 (by push_cast; nlinarith)
  rw [tilt_factor_eq]
  calc roundTo 3 (max 0.7 (1.0 - 0.005 * |tilt - o|)) ≤ (1000 : ℤ) / 10 ^ 3 := h2
  _ = 1 := by norm_num

theorem tilt_factor_of_eq (o : ℚ) : calculate_tilt_factor o o = 1 := by
  unfold calculate_tilt_factor
  rw [sub_self, abs_zero, if_pos rfl]
  norm_num

/-- Every orientation factor drawn from the table (or its default) lies in
`[0.55, 1]`. -/
theorem orientation_factor_bounds (s : List Char) :
    0.55 ≤ orientation_factor_of s ∧ orientation_factor_of s ≤ 1 := by
  unfold orientation_factor_of ORIENTATION_FACTORS
  simp only [List.lookup]
  repeat' split
  all_goals simp
  all_goals norm_num

/-! ## Claim C4 (corrected) -/

/-- C4 as stated is false: the location resolver's own normalization
(`lookup_postcode`, services/postcode.py line 53) only strips spaces and
uppercases — it reinserts no space — so on `"sw1a1aa"` it returns
`"SW1A1AA"`, not `"SW1A 1AA"`. -/
theorem counterexample_C4 :
    lookupNormalize ("sw1a1aa".toList) = "SW1A1AA".toList ∧
    lookupNormalize ("sw1a1aa".toList) ≠ "SW1A 1AA".toList := by
  constructor
  · decide
  · decide

/-- C4 (amended): the space-reinserting normalization lives in the request
validator `CalculationRequest.validate_postcode`, which strips spaces,
uppercases, reinserts a single space before the final 3 characters and maps
`"sw1a1aa"` to `"SW1A 1AA"`; the location resolver's normalization only
strips spaces and uppercases, mapping `"sw1a1aa"` to `"SW1A1AA"`.  Both are
idempotent and insensitive to letter case and to spaces in the input. -/
theorem C4_normalization :
    (∀ s, lookupNormalize (lookupNormalize s) = lookupNormalize s) ∧
    lookupNormalize ("sw1a1aa".toList) = "SW1A1AA".toList ∧
    (∀ s, lookupNormalize (s.map pyLower) = lookupNormalize s) ∧
    (∀ s, lookupNormalize (s.filter (fun c => c != ' ')) = lookupNormalize s) ∧
    (∀ s, validate_postcode (validate_postcode s) = validate_postcode s) ∧
    validate_postcode ("sw1a1aa".toList) = "SW1A 1AA".toList ∧
    (∀ s, validate_postcode (s.map pyLower) = validate_postcode s) ∧
    (∀ s, validate_postcode (s.filter (fun c => c != ' ')) = validate_postcode s) := by
  have hcong : ∀ s t : List Char, stripUpper s = stripUpper t →
      validate_postcode s = validate_postcode t := by
    intro s t h
    unfold validate_postcode
    rw [h]
  refine ⟨lookupNormalize_idem, by decide, ?_, ?_, validate_postcode_idem, by decide, ?_, ?_⟩
  · intro s
    exact stripUpper_map_pyLower s
  · intro s
    exact stripUpper_filter_space s
  · intro s
    exact hcong _ _ (stripUpper_map_pyLower s)
  · intro s
    exact hcong _ _ (stripUpper_filter_space s)

/-! ## Claim C7 (confirmed) -/

/-- C7: the orientation factor table has exactly the 8 documented entries
(south 1.00, south-east/south-west 0.97, east/west 0.88,
north-east/north-west 0.75, north 0.55), any unrecognized orientation
string falls back to 0.88, and the factors are strictly ordered
south > south-east = south-west > east = west > north-east = north-west
> north. -/
theorem C7_orientation_factors :
    orientation_factor_of ("south".toList) = 1.00 ∧
    orientation_factor_of ("south-east".toList) = 0.97 ∧
    orientation_factor_of ("south-west".toList) = 0.97 ∧
    orientation_factor_of ("east".toList) = 0.88 ∧
    orientation_factor_of ("west".toList) = 0.88 ∧
    orientation_factor_of ("north-east".toList) = 0.75 ∧
    orientation_factor_of ("north-west".toList) = 0.75 ∧
    orientation_factor_of ("north".toList) = 0.55 ∧
    ORIENTATION_FACTORS.length = 8 ∧
    (∀ s, ORIENTATION_FACTORS.lookup (s.map pyLower) = none →
      orientation_factor_of s = 0.88) ∧
    orientation_factor_of ("south".toList) > orientation_factor_of ("south-east".toList) ∧
    orientation_factor_of ("south-east".toList) = orientation_factor_of ("south-west".toList) ∧
    orientation_factor_of ("south-west".toList) > orientation_factor_of ("east".toList) ∧
    orientation_factor_of ("east".toList) = orientation_factor_of ("west".toList) ∧
    orientation_factor_of ("west".toList) > orientation_factor_of ("north-east".toList) ∧
    orientation_factor_of ("north-east".toList) = orientation_factor_of ("north-west".toList) ∧
    orientation_factor_of ("north-west".toList) > orientation_factor_of ("north".toList) := by
  have hs : orientation_factor_of ("south".toList) = 1.00 := rfl
  have hse : orientation_factor_of ("south-east".toList) = 0.97 := rfl
  have hsw : orientation_factor_of ("south-west".toList) = 0.97 := rfl
  have he : orientation_factor_of ("east".toList) = 0.88 := rfl
  have hw : orientation_factor_of ("west".toList) = 0.88 := rfl
  have hne : orientation_factor_of ("north-east".toList) = 0.75 := rfl
  have hnw : orientation_factor_of ("north-west".toList) = 0.75 := rfl
  have hn : orientation_factor_of ("north".toList) = 0.55 := rfl
  refine ⟨hs, hse, hsw, he, hw, hne, hnw, hn, rfl, ?_, ?_, ?_, ?_, ?_, ?_, ?_, ?_⟩
  · intro s h
    unfold orientation_factor_of
    rw [h]
    rfl
  · rw [hs, hse]; norm_num
  · rw [hse, hsw]
  · rw [hsw, he]; norm_num
  · rw [he, hw]
  · rw [hw, hne]; norm_num
  · rw [hne, hnw]
  · rw [hnw, hn]; norm_num

/-- Witness for C7: the unrecognized orientation `"vertical"` receives the
default factor 0.88. -/
theorem C7_orientation_factors_witness :
    orientation_factor_of ("vertical".toList) = 0.88 :=
  C7_orientation_factors.2.2.2.2.2.2.2.2.2.1 ("vertical".toList) rfl

/-! ## Claim C5 (corrected) -/

/-- C5 as stated is false: a response with the irradiance parameter missing
entirely and a malformed/unparseable payload both fail with the SAME
exception class `ClimateAPIError` — the two failure kinds are collapsed
into one error type, distinguishable only by message text. -/
theorem counterexample_C5 :
    get_solar_climate_data 51.5 (-0.1) (.http 200 (some [])) =
      .error (.climateAPIError "No GHI data returned from NASA POWER") ∧
    get_solar_climate_data 51.5 (-0.1) (.http 200 none) =
      .error (.climateAPIError "Failed to parse NASA POWER response") ∧
    (AppException.climateAPIError "No GHI data returned from NASA POWER").kind =
      (AppException.climateAPIError "Failed to parse NASA POWER response").kind := by
  exact ⟨rfl, rfl, rfl⟩

/-- C5 (amended): every failure of the climate provider — timeout, network
error, non-200 status, missing parameter, malformed payload — is signalled
with the single exception class `ClimateAPIError`; the missing-parameter and
malformed-payload cases differ only in message.  The location resolver's two
exception classes and the wind 501 outcome do remain distinct from it and
from each other. -/
theorem C5_error_taxonomy :
    (∀ latitude longitude resp e,
       get_solar_climate_data latitude longitude resp = .error e →
       e.kind = ExnKind.climateAPI) ∧
    get_solar_climate_data 51.5 (-0.1) (.http 200 (some [])) =
      .error (.climateAPIError "No GHI data returned from NASA POWER") ∧
    get_solar_climate_data 51.5 (-0.1) (.http 200 none) =
      .error (.climateAPIError "Failed to parse NASA POWER response") ∧
    (AppException.climateAPIError "No GHI data returned from NASA POWER" ≠
      AppException.climateAPIError "Failed to parse NASA POWER response") ∧
    (∀ pc presp e, lookup_postcode pc presp = .error e →
       e.kind = ExnKind.postcodeNotFound ∨ e.kind = ExnKind.postcodeAPI) ∧
    (ExnKind.postcodeNotFound ≠ ExnKind.postcodeAPI ∧
     ExnKind.postcodeNotFound ≠ ExnKind.climateAPI ∧
     ExnKind.postcodeAPI ≠ ExnKind.climateAPI) ∧
    (∀ req psvc csvc loc cd, req.system_type = SystemType.wind →
       psvc req.postcode = .ok loc →
       csvc loc.latitude loc.longitude = .ok cd →
       (calculate_energy req psvc csvc).outcome =
         .error ⟨501, .NOT_IMPLEMENTED, "Wind turbine calculations coming soon!"⟩) := by
  refine ⟨?_, rfl, rfl, by simp, ?_, ⟨by simp, by simp, by simp⟩, ?_⟩
  · intro latitude longitude resp e h
    match resp with
    | .timeout =>
      simp only [get_solar_climate_data] at h
      cases h
      rfl
    | .requestError m =>
      simp only [get_solar_climate_data] at h
      cases h
      rfl
    | .http status payload =>
      simp only [get_solar_climate_data] at h
      split at h
      · cases h
        rfl
      · match payload with
        | none =>
          simp only at h
          cases h
          rfl
        | some md =>
          simp only at h
          split at h
          · cases h
            rfl
          · cases h
  · intro pc presp e h
    match presp with
    | .timeout =>
      simp only [lookup_postcode] at h
      cases h
      right; rfl
    | .requestError m =>
      simp only [lookup_postcode] at h
      cases h
      right; rfl
    | .http status body =>
      simp only [lookup_postcode] at h
      split at h
      · cases h
        left; rfl
      · split at h
        · cases h
          right; rfl
        · split at h
          · cases h
            left; rfl
          · cases h
  · intro req psvc csvc loc cd hw hp hc
    simp only [calculate_energy, hp, hc, hw]

/-- Witness for C5 (amended): the timeout failure carries the climate
exception class. -/
theorem C5_error_taxonomy_witness :
    (AppException.climateAPIError "NASA POWER API request timed out").kind =
      ExnKind.climateAPI :=
  C5_error_taxonomy.1 51.5 (-0.1) NasaPowerResponse.timeout _ rfl

/-! ## Claim C8 (confirmed) -/

/-- C8: when the location lookup reports not-found, the pipeline fails with
the 404 INVALID_POSTCODE (LocationNotFound) outcome and neither the climate
provider nor the calculator is invoked. -/
theorem C8_notfound_short_circuit (req : CalculationRequest)
    (presp : PostcodesIoResponse)
    (csvc : ℚ → ℚ → Except AppException SolarClimateData) (m : String)
    (h : lookup_postcode req.postcode presp = .error (.postcodeNotFoundError m)) :
    (calculate_energy req (fun pc => lookup_postcode pc presp) csvc).outcome =
      .error ⟨404, .INVALID_POSTCODE, m⟩ ∧
    (calculate_energy req (fun pc => lookup_postcode pc presp) csvc).climateCalled = false ∧
    (calculate_energy req (fun pc => lookup_postcode pc presp) csvc).calculatorCalled = false := by
  simp [calculate_energy, h]

/-- Witness for C8: a concrete request whose postcode lookup returns
HTTP 404. -/
theorem C8_notfound_short_circuit_witness :
    (calculate_energy
        ⟨"SW1A 1AA".toList, .solar, .solar ⟨4, "south".toList, none, 1, 0.96⟩⟩
        (fun pc => lookup_postcode pc (.http 404 ⟨200, none, 0, 0, none, none⟩))
        (fun _ _ => .error (.climateAPIError "unused"))).outcome =
      .error ⟨404, .INVALID_POSTCODE, "Postcode not found"⟩ ∧
    (calculate_energy
        ⟨"SW1A 1AA".toList, .solar, .solar ⟨4, "south".toList, none, 1, 0.96⟩⟩
        (fun pc => lookup_postcode pc (.http 404 ⟨200, none, 0, 0, none, none⟩))
        (fun _ _ => .error (.climateAPIError "unused"))).climateCalled = false ∧
    (calculate_energy
        ⟨"SW1A 1AA".toList, .solar, .solar ⟨4, "south".toList, none, 1, 0.96⟩⟩
        (fun pc => lookup_postcode pc (.http 404 ⟨200, none, 0, 0, none, none⟩))
        (fun _ _ => .error (.climateAPIError "unused"))).calculatorCalled = false :=
  C8_notfound_short_circuit _ _ _ _ rfl

/-! ## Claim C9 (confirmed) -/

/-- C9: for a wind-typed request the pipeline still performs the postcode
lookup and then the climate lookup before reporting the unsupported
outcome — a wind request with a not-found postcode fails 404
INVALID_POSTCODE (not 501); the 501 NOT_IMPLEMENTED outcome occurs exactly
when both lookups succeed; and no (partial) solar output is ever produced:
the calculator is never invoked on a wind request. -/
theorem C9_wind_pipeline (req : CalculationRequest)
    (psvc : List Char → Except AppException Location)
    (csvc : ℚ → ℚ → Except AppException SolarClimateData)
    (hw : req.system_type = SystemType.wind) :
    (calculate_energy req psvc csvc).calculatorCalled = false ∧
    (∀ out, (calculate_energy req psvc csvc).outcome ≠ .ok out) ∧
    (∀ m, psvc req.postcode = .error (.postcodeNotFoundError m) →
       (calculate_energy req psvc csvc).outcome = .error ⟨404, .INVALID_POSTCODE, m⟩ ∧
       (calculate_energy req psvc csvc).climateCalled = false) ∧
    (∀ loc cd, psvc req.postcode = .ok loc →
       csvc loc.latitude loc.longitude = .ok cd →
       (calculate_energy req psvc csvc).outcome =
         .error ⟨501, .NOT_IMPLEMENTED, "Wind turbine calculations coming soon!"⟩ ∧
       (calculate_energy req psvc csvc).climateCalled = true) ∧
    (∀ e, (calculate_energy req psvc csvc).outcome = .error e →
       e.code = ErrorCode.NOT_IMPLEMENTED →
       ∃ loc, psvc req.postcode = .ok loc ∧
         ∃ cd, csvc loc.latitude loc.longitude = .ok cd) := by
  refine ⟨?_, ?_, ?_, ?_, ?_⟩
  · cases hps : psvc req.postcode with
    | error e =>
      cases e <;> simp [calculate_energy, hps]
    | ok loc =>
      cases hcs : csvc loc.latitude loc.longitude with
      | error e => cases e <;> simp [calculate_energy, hps, hcs]
      | ok cd =>
        simp only [calculate_energy, hps, hcs, hw]
  · intro out
    cases hps : psvc req.postcode with
    | error e =>
      cases e <;> simp [calculate_energy, hps]
    | ok loc =>
      cases hcs : csvc loc.latitude loc.longitude with
      | error e => cases e <;> simp [calculate_energy, hps, hcs]
      | ok cd =>
        simp only [calculate_energy, hps, hcs, hw]
        cases req.system_specs <;> simp
  · intro m hm
    simp [calculate_energy, hm]
  · intro loc cd h1 h2
    simp [calculate_energy, h1, h2, hw]
  · intro e he hcode
    cases hps : psvc req.postcode with
    | error exn =>
      cases exn <;>
        (simp only [calculate_energy, hps] at he
         injection he with h1
         rw [← h1] at hcode
         simp at hcode)
    | ok loc =>
      cases hcs : csvc loc.latitude loc.longitude with
      | error exn =>
        cases exn <;>
          (simp only [calculate_energy, hps, hcs] at he
           injection he with h1
           rw [← h1] at hcode
           simp at hcode)
      | ok cd =>
        exact ⟨loc, rfl, cd, hcs⟩

/-- Witness for C9: a wind request with both lookups succeeding yields the
501 NOT_IMPLEMENTED outcome and never calls the calculator. -/
theorem C9_wind_pipeline_witness :
    (calculate_energy
        ⟨"SW1A 1AA".toList, .wind, .wind ⟨5, 15, none⟩⟩
        (fun _ => .ok ⟨"SW1A 1AA".toList, 51.5, -0.1, "London"⟩)
        (fun _ _ => .ok ⟨51.5, -0.1, [], 0, "NASA_POWER"⟩)).calculatorCalled = false ∧
    (calculate_energy
        ⟨"SW1A 1AA".toList, .wind, .wind ⟨5, 15, none⟩⟩
        (fun _ => .ok ⟨"SW1A 1AA".toList, 51.5, -0.1, "London"⟩)
        (fun _ _ => .ok ⟨51.5, -0.1, [], 0, "NASA_POWER"⟩)).outcome =
      .error ⟨501, .NOT_IMPLEMENTED, "Wind turbine calculations coming soon!"⟩ ∧
    (calculate_energy
        ⟨"SW1A 1AA".toList, .wind, .wind ⟨5, 15, none⟩⟩
        (fun _ => .ok ⟨"SW1A 1AA".toList, 51.5, -0.1, "London"⟩)
        (fun _ _ => .ok ⟨51.5, -0.1, [], 0, "NASA_POWER"⟩)).climateCalled = true := by
  have h := C9_wind_pipeline
    ⟨"SW1A 1AA".toList, .wind, .wind ⟨5, 15, none⟩⟩
    (fun _ => .ok ⟨"SW1A 1AA".toList, 51.5, -0.1, "London"⟩)
    (fun _ _ => .ok ⟨51.5, -0.1, [], 0, "NASA_POWER"⟩)
    rfl
  have h2 := h.2.2.2.1 ⟨"SW1A 1AA".toList, 51.5, -0.1, "London"⟩
    ⟨51.5, -0.1, [], 0, "NASA_POWER"⟩ rfl rfl
  exact ⟨h.1, h2.1, h2.2⟩

/-! ## Claim C10 (confirmed) -/

/-- C10: the calculator totally accepts a monthly irradiance sequence of any
length — it zips the sequence with the 12-entry days-in-month table, so
`monthly_kwh` has exactly `min (length g) 12` entries: shorter inputs are
silently truncated, and 12 entries are produced exactly when the input has
at least 12. -/
theorem C10_zip_truncation (capacity_kwp lat lon ann latitude : ℚ)
    (g : List ℚ) (src : String) (ori : List Char) (tiltOpt : Option ℚ)
    (shading inv : ℚ) :
    (calculate_solar_output capacity_kwp ⟨lat, lon, g, ann, src⟩ latitude
        ori tiltOpt shading inv).monthly_kwh.length = min g.length 12 ∧
    (g.length < 12 →
      (calculate_solar_output capacity_kwp ⟨lat, lon, g, ann, src⟩ latitude
          ori tiltOpt shading inv).monthly_kwh.length = g.length) ∧
    (12 ≤ g.length →
      (calculate_solar_output capacity_kwp ⟨lat, lon, g, ann, src⟩ latitude
          ori tiltOpt shading inv).monthly_kwh.length = 12) := by
  have hdays : days_in_month.length = 12 := rfl
  have hlen : (calculate_solar_output capacity_kwp ⟨lat, lon, g, ann, src⟩ latitude
      ori tiltOpt shading inv).monthly_kwh.length = min g.length 12 := by
    simp [calculate_solar_output, List.length_zip, hdays]
  refine ⟨hlen, ?_, ?_⟩
  · intro h
    rw [hlen]
    omega
  · intro h
    rw [hlen]
    omega

/-- Witness for C10: a 2-month input is truncated to 2 entries rather than
rejected. -/
theorem C10_zip_truncation_witness :
    (calculate_solar_output 4 ⟨51.5, -0.1, [1, 2], 0, "NASA_POWER"⟩ 51.5
        ("south".toList) none 1 0.96).monthly_kwh.length = min 2 12 ∧
    ([1, 2] : List ℚ).length < 12 ∧
    (calculate_solar_output 4 ⟨51.5, -0.1, [1, 2], 0, "NASA_POWER"⟩ 51.5
        ("south".toList) none 1 0.96).monthly_kwh.length = 2 := by
  have h := C10_zip_truncation 4 51.5 (-0.1) 0 51.5 [1, 2] "NASA_POWER"
    ("south".toList) none 1 0.96
  exact ⟨h.1, by norm_num, h.2.1 (by norm_num)⟩

/-! ## Claim C6 (confirmed) -/

/-- C6: on a successful (status-200, parseable, non-empty) climate response,
months absent from the 12-key monthly mapping are zero-filled rather than
rejected, the monthly sequence has exactly 12 entries, and the record's
annual total is the sum over the 12 months of monthly mean times
days-in-month, with 28.25 days for February. -/
theorem C6_zero_fill (lat lon : ℚ) (md : List (List Char × ℚ))
    (h : md.isEmpty = false) :
    ∃ cd : SolarClimateData,
      get_solar_climate_data lat lon (.http 200 (some md)) = .ok cd ∧
      cd.monthly_ghi_kwh_m2_day.length = 12 ∧
      (∀ i, i < 12 → (md.lookup (month_order.getD i [])).isNone = true →
         cd.monthly_ghi_kwh_m2_day.getD i 1 = 0) ∧
      cd.annual_ghi_kwh_m2 =
        ((cd.monthly_ghi_kwh_m2_day.zip days_in_month).map (fun p => p.1 * p.2)).sum ∧
      days_in_month.getD 1 0 = 28.25 ∧
      days_in_month.length = 12 := by
  refine ⟨⟨lat, lon, month_order.map (fun m => (md.lookup m).getD 0),
      (((month_order.map (fun m => (md.lookup m).getD 0)).zip days_in_month).map
        (fun p => p.1 * p.2)).sum, "NASA_POWER"⟩, ?_, ?_, ?_, rfl, ?_, rfl⟩
  · simp [get_solar_climate_data, h]
  · simp [month_order]
  · intro i hi hnone
    rw [Option.isNone_iff_eq_none] at hnone
    interval_cases i <;>
      simp only [month_order, List.map_cons, List.getD_cons_zero,
        List.getD_cons_succ] at hnone ⊢ <;>
      rw [hnone] <;> rfl
  · norm_num [days_in_month]

/-- Witness for C6: with only January supplied, the lookup succeeds and
February (absent) is zero-filled. -/
theorem C6_zero_fill_witness :
    ∃ cd : SolarClimateData,
      get_solar_climate_data 51.5 (-0.1) (.http 200 (some [("JAN".toList, 2.5)])) = .ok cd ∧
      cd.monthly_ghi_kwh_m2_day.length = 12 ∧
      (∀ i, i < 12 →
         (([(("JAN".toList : List Char), (2.5 : ℚ))].lookup (month_order.getD i [])).isNone = true →
         cd.monthly_ghi_kwh_m2_day.getD i 1 = 0)) ∧
      cd.annual_ghi_kwh_m2 =
        ((cd.monthly_ghi_kwh_m2_day.zip days_in_month).map (fun p => p.1 * p.2)).sum ∧
      days_in_month.getD 1 0 = 28.25 ∧
      days_in_month.length = 12 :=
  C6_zero_fill 51.5 (-0.1) [("JAN".toList, 2.5)] rfl

/-! ## Claim C1 (confirmed) -/

theorem sum_hundredths (l : List ℚ) (h : ∀ x ∈ l, ∃ k : ℤ, x * 100 = (k : ℚ)) :
    ∃ k : ℤ, l.sum * 100 = (k : ℚ) := by
  induction l with
  | nil => exact ⟨0, by simp⟩
  | cons a t ih =>
    obtain ⟨k1, hk1⟩ := h a (List.mem_cons_self a t)
    obtain ⟨k2, hk2⟩ := ih (fun x hx => h x (List.mem_cons_of_mem a hx))
    refine ⟨k1 + k2, ?_⟩
    push_cast
    rw [List.sum_cons, add_mul, hk1, hk2]

/-- The sum of the calculator's (2-decimal-rounded) monthly values is itself
an exact 2-decimal value, so the final `round(annual_kwh, 2)` fixes it. -/
theorem roundTo_sum_monthly (l : List ℚ) (h : ∀ x ∈ l, ∃ q, x = roundTo 2 q) :
    roundTo 2 l.sum = l.sum := by
  obtain ⟨k, hk⟩ := sum_hundredths l (by
    intro x hx
    obtain ⟨q, hq⟩ := h x hx
    refine ⟨pyRound (q * 10 ^ 2), ?_⟩
    rw [hq]
    have := roundTo_mul_pow 2 q
    norm_num at this ⊢
    exact this)
  exact roundTo_eq_self 2 l.sum k (by norm_num at hk ⊢; exact hk)

/-- C1: for a 12-month irradiance sequence, each monthly yield is the
2-decimal rounding of capacity × irradiance × days-in-month ×
system-efficiency × 0.85, with the fixed days table (28.25 for February),
and the reported annual yield is the plain sum of the already-rounded
monthly values. -/
theorem C1_monthly_energy (capacity_kwp lat lon ann latitude : ℚ)
    (g : List ℚ) (src : String) (panel_orientation : List Char)
    (panel_tilt_degrees : Option ℚ) (shading_factor inverter_efficiency : ℚ)
    (h12 : g.length = 12) (m : ℕ) (hm : m < 12) :
    (calculate_solar_output capacity_kwp ⟨lat, lon, g, ann, src⟩ latitude
        panel_orientation panel_tilt_degrees shading_factor
        inverter_efficiency).monthly_kwh.getD m 0 =
      roundTo 2 (capacity_kwp * g.getD m 0 * days_in_month.getD m 0 *
        (orientation_factor_of panel_orientation *
          calculate_tilt_factor
            (panel_tilt_degrees.getD (calculate_optimal_tilt latitude))
            (calculate_optimal_tilt latitude) *
          inverter_efficiency * 0.96 * 0.98 * 0.99 * 0.99 * shading_factor) *
        0.85) ∧
    (calculate_solar_output capacity_kwp ⟨lat, lon, g, ann, src⟩ latitude
        panel_orientation panel_tilt_degrees shading_factor
        inverter_efficiency).annual_kwh =
      (calculate_solar_output capacity_kwp ⟨lat, lon, g, ann, src⟩ latitude
        panel_orientation panel_tilt_degrees shading_factor
        inverter_efficiency).monthly_kwh.sum ∧
    (calculate_solar_output capacity_kwp ⟨lat, lon, g, ann, src⟩ latitude
        panel_orientation panel_tilt_degrees shading_factor
        inverter_efficiency).monthly_kwh.length = 12 ∧
    days_in_month = [31, 28.25, 31, 30, 31, 30, 31, 31, 30, 31, 30, 31] := by
  have hdays : days_in_month.length = 12 := rfl
  have hziplen : (g.zip days_in_month).length = 12 := by
    rw [List.length_zip, h12, hdays]
    simp
  refine ⟨?_, ?_, ?_, rfl⟩
  · show ((g.zip days_in_month).map _).getD m 0 = _
    rw [List.getD_eq_getElem _ _ (by rw [List.length_map, hziplen]; exact hm)]
    rw [List.getElem_map, List.getElem_zip]
    rw [List.getD_eq_getElem _ _ (by rw [h12]; exact hm)]
    rw [List.getD_eq_getElem _ _ (by rw [hdays]; exact hm)]
  · show roundTo 2 (_ : List ℚ).sum = _
    apply roundTo_sum_monthly
    intro x hx
    rw [List.mem_map] at hx
    obtain ⟨p, _, hpx⟩ := hx
    exact ⟨_, hpx.symm⟩
  · show ((g.zip days_in_month).map _).length = 12
    rw [List.length_map, hziplen]

/-- Witness for C1 at a concrete 12-month input (February, index 1, uses
28.25 days). -/
theorem C1_monthly_energy_witness :
    (calculate_solar_output 4 ⟨51.5, -0.1,
        [2.5, 2.5, 2.5, 2.5, 2.5, 2.5, 2.5, 2.5, 2.5, 2.5, 2.5, 2.5], 913.125,
        "NASA_POWER"⟩ 51.5 ("south".toList) none 1
        0.96).monthly_kwh.getD 1 0 =
      roundTo 2 (4 * ([2.5, 2.5, 2.5, 2.5, 2.5, 2.5, 2.5, 2.5, 2.5, 2.5, 2.5,
          (2.5 : ℚ)].getD 1 0) * days_in_month.getD 1 0 *
        (orientation_factor_of ("south".toList) *
          calculate_tilt_factor ((none : Option ℚ).getD (calculate_optimal_tilt 51.5))
            (calculate_optimal_tilt 51.5) *
          0.96 * 0.96 * 0.98 * 0.99 * 0.99 * 1) * 0.85) ∧
    (calculate_solar_output 4 ⟨51.5, -0.1,
        [2.5, 2.5, 2.5, 2.5, 2.5, 2.5, 2.5, 2.5, 2.5, 2.5, 2.5, 2.5], 913.125,
        "NASA_POWER"⟩ 51.5 ("south".toList) none 1 0.96).annual_kwh =
      (calculate_solar_output 4 ⟨51.5, -0.1,
        [2.5, 2.5, 2.5, 2.5, 2.5, 2.5, 2.5, 2.5, 2.5, 2.5, 2.5, 2.5], 913.125,
        "NASA_POWER"⟩ 51.5 ("south".toList) none 1 0.96).monthly_kwh.sum ∧
    (calculate_solar_output 4 ⟨51.5, -0.1,
        [2.5, 2.5, 2.5, 2.5, 2.5, 2.5, 2.5, 2.5, 2.5, 2.5, 2.5, 2.5], 913.125,
        "NASA_POWER"⟩ 51.5 ("south".toList) none 1 0.96).monthly_kwh.length = 12 ∧
    days_in_month = [31, 28.25, 31, 30, 31, 30, 31, 31, 30, 31, 30, 31] :=
  C1_monthly_energy 4 51.5 (-0.1) 913.125 51.5
    [2.5, 2.5, 2.5, 2.5, 2.5, 2.5, 2.5, 2.5, 2.5, 2.5, 2.5, 2.5] "NASA_POWER"
    ("south".toList) none 1 0.96 rfl 1 (by norm_num)

/-! ## Claim C2 (corrected) -/

/-- C2 as stated is false: the code rounds the tilt factor to 3 decimals
(`round(factor, 3)`, calculators/solar.py line 82), so for latitude 50
(optimal tilt 40) and tilt 40.06 the factor is `round(0.9997, 3) = 1.0`:
it differs from the exact `max(0.7, 1 − 0.005·deviation)` and equals 1.0
at a tilt different from the optimal one. -/
theorem counterexample_C2 :
    calculate_optimal_tilt 50 = 40 ∧
    calculate_tilt_factor 40.06 (calculate_optimal_tilt 50) = 1 ∧
    (40.06 : ℚ) ≠ calculate_optimal_tilt 50 ∧
    calculate_tilt_factor 40.06 (calculate_optimal_tilt 50) ≠
      max 0.7 (1 - 0.005 * |(40.06 : ℚ) - calculate_optimal_tilt 50|) := by
  have hopt : calculate_optimal_tilt 50 = 40 := by
    unfold calculate_optimal_tilt
    rw [show max (0 : ℚ) (50 - 10) = 40 by
      rw [max_eq_right (by norm_num : (0:ℚ) ≤ 50 - 10)]; norm_num]
    exact roundTo_eq_self 1 40 400 (by norm_num)
  have habs : |(40.06 : ℚ) - 40| = 0.06 := by
    rw [show (40.06 : ℚ) - 40 = 0.06 by norm_num]
    exact abs_of_pos (by norm_num)
  have hmax : max (0.7 : ℚ) (1.0 - 0.005 * 0.06) = 0.9997 := by
    rw [show (1.0 : ℚ) - 0.005 * 0.06 = 0.9997 by norm_num]
    exact max_eq_right (by norm_num)
  have htf : calculate_tilt_factor 40.06 40 = 1 := by
    rw [tilt_factor_eq, habs, hmax]
    norm_num [roundTo, pyRound]
  refine ⟨hopt, by rw [hopt]; exact htf, by rw [hopt]; norm_num, ?_⟩
  rw [hopt, htf, habs]
  rw [show max (0.7 : ℚ) (1 - 0.005 * 0.06) = 0.9997 by
    rw [show (1 : ℚ) - 0.005 * 0.06 = 0.9997 by norm_num]
    exact max_eq_right (by norm_num)]
  norm_num

/-- C2 (amended): the tilt factor is the 3-decimal rounding of
`max(0.7, 1 − 0.005·|tilt − optimal_tilt|)` (so it may equal 1.0 for small
nonzero deviations); it always lies in [0.7, 1.0]; it equals 1.0 whenever
`tilt = optimal_tilt`; `optimal_tilt = max(0, latitude − 10)` rounded to 1
decimal; and when the tilt is unset the optimal tilt is used, with recorded
tilt factor 1.0. -/
theorem C2_tilt_factor :
    (∀ tilt latitude : ℚ,
      calculate_tilt_factor tilt (calculate_optimal_tilt latitude) =
        roundTo 3 (max 0.7 (1.0 - 0.005 * |tilt - calculate_optimal_tilt latitude|)) ∧
      0.7 ≤ calculate_tilt_factor tilt (calculate_optimal_tilt latitude) ∧
      calculate_tilt_factor tilt (calculate_optimal_tilt latitude) ≤ 1 ∧
      (tilt = calculate_optimal_tilt latitude →
        calculate_tilt_factor tilt (calculate_optimal_tilt latitude) = 1) ∧
      calculate_optimal_tilt latitude = roundTo 1 (max 0 (latitude - 10))) ∧
    (∀ (capacity_kwp : ℚ) (cd : SolarClimateData) (latitude : ℚ)
        (ori : List Char) (shading inv : ℚ),
      (calculate_solar_output capacity_kwp cd latitude ori none shading
          inv).assumptions.actual_tilt_degrees = calculate_optimal_tilt latitude ∧
      (calculate_solar_output capacity_kwp cd latitude ori none shading
          inv).assumptions.tilt_factor = 1) := by
  constructor
  · intro tilt latitude
    refine ⟨tilt_factor_eq _ _, tilt_factor_lower _ _, tilt_factor_upper _ _, ?_, rfl⟩
    intro h
    rw [h]
    exact tilt_factor_of_eq _
  · intro capacity_kwp cd latitude ori shading inv
    constructor
    · rfl
    · show roundTo 3
        (calculate_tilt_factor
          ((none : Option ℚ).getD (calculate_optimal_tilt latitude))
          (calculate_optimal_tilt latitude)) = 1
      rw [show ((none : Option ℚ).getD (calculate_optimal_tilt latitude)) =
        calculate_optimal_tilt latitude from rfl]
      rw [tilt_factor_of_eq]
      exact roundTo_eq_self 3 1 1000 (by norm_num)

/-- Witness for C2 (amended): at the optimal tilt itself the factor is
exactly 1. -/
theorem C2_tilt_factor_witness :
    calculate_tilt_factor (calculate_optimal_tilt 51.5)
      (calculate_optimal_tilt 51.5) = 1 :=
  (C2_tilt_factor.1 (calculate_optimal_tilt 51.5) 51.5).2.2.2.1 rfl

/-! ## Claim C3 (corrected): helper bounds -/

theorem roundTo_zero (n : ℕ) : roundTo n 0 = 0 :=
  roundTo_eq_self n 0 0 (by simp)

/-- Lower bound: the monthly-yield sum is non-negative when capacity,
irradiance and efficiency are. -/
theorem sum_round2_nonneg (c E : ℚ) (g ds : List ℚ)
    (hg : ∀ x ∈ g, 0 ≤ x) (hds : ∀ d ∈ ds, 0 ≤ d) (hc : 0 ≤ c) (hE : 0 ≤ E) :
    0 ≤ ((g.zip ds).map (fun p => roundTo 2 (c * p.1 * p.2 * E * 0.85))).sum := by
  induction g generalizing ds with
  | nil => simp
  | cons x g' ih =>
    cases ds with
    | nil => simp
    | cons d ds' =>
      simp only [List.zip_cons_cons, List.map_cons, List.sum_cons]
      have hx := hg x (List.mem_cons_self x g')
      have hd := hds d (List.mem_cons_self d ds')
      have h1 : 0 ≤ roundTo 2 (c * x * d * E * 0.85) := by
        apply roundTo_nonneg
        have : 0 ≤ c * x * d * E :=
          mul_nonneg (mul_nonneg (mul_nonneg hc hx) hd) hE
        nlinarith
      have h2 := ih ds' (fun y hy => hg y (List.mem_cons_of_mem x hy))
        (fun e he => hds e (List.mem_cons_of_mem d he))
      linarith

/-- Upper bound: with every monthly irradiance at most 24 kWh/m²/day, the
monthly-yield sum is bounded by the unrounded total plus half a cent per
month. -/
theorem sum_round2_le (c E : ℚ) (g ds : List ℚ)
    (hg : ∀ x ∈ g, 0 ≤ x ∧ x ≤ 24) (hds : ∀ d ∈ ds, 0 ≤ d)
    (hc : 0 ≤ c) (hE : 0 ≤ E) :
    ((g.zip ds).map (fun p => roundTo 2 (c * p.1 * p.2 * E * 0.85))).sum ≤
      c * E * 0.85 * 24 * ds.sum + ds.length * (1/200) := by
  induction g generalizing ds with
  | nil =>
    simp only [List.zip_nil_left, List.map_nil, List.sum_nil]
    have h1 : 0 ≤ ds.sum := List.sum_nonneg hds
    have h2 : 0 ≤ c * E * 0.85 * 24 * ds.sum := by positivity
    have h3 : (0 : ℚ) ≤ ds.length * (1/200) := by positivity
    linarith
  | cons x g' ih =>
    cases ds with
    | nil => simp
    | cons d ds' =>
      simp only [List.zip_cons_cons, List.map_cons, List.sum_cons]
      have hx := hg x (List.mem_cons_self x g')
      have hd := hds d (List.mem_cons_self d ds')
      have hds' : ∀ e ∈ ds', 0 ≤ e := fun e he => hds e (List.mem_cons_of_mem d he)
      have h1 : roundTo 2 (c * x * d * E * 0.85) ≤ c * x * d * E * 0.85 + 1/200 := by
        have := roundTo_le 2 (c * x * d * E * 0.85)
        norm_num at this
        linarith
      have h2 : c * x * d * E * 0.85 ≤ c * E * 0.85 * 24 * d := by
        have key : 0 ≤ (c * d * E) * (24 - x) := by
          apply mul_nonneg
          · exact mul_nonneg (mul_nonneg hc hd) hE
          · linarith [hx.2]
        nlinarith
      have h3 := ih ds' (fun y hy => hg y (List.mem_cons_of_mem x hy)) hds'
      have h5 : ((d :: ds').length : ℚ) = ds'.length + 1 := by
        push_cast [List.length_cons]
        ring
      rw [h5]
      have hxp : c * E * 0.85 * 24 * (d + ds'.sum) =
          c * E * 0.85 * 24 * d + c * E * 0.85 * 24 * ds'.sum := by ring
      linarith [h1, h2, h3, hxp]

/-- The combined system-efficiency chain lies between 0 and
0.99 × 0.96 × 0.98 × 0.99 × 0.99 = 0.9128572992. -/
theorem system_efficiency_bounds (ori : List Char) (tilt o inv sh : ℚ)
    (hinv : 0.9 ≤ inv) (hinv2 : inv ≤ 0.99) (hsh : 0 ≤ sh) (hsh2 : sh ≤ 1) :
    0 ≤ orientation_factor_of ori * calculate_tilt_factor tilt o * inv *
        0.96 * 0.98 * 0.99 * 0.99 * sh ∧
    orientation_factor_of ori * calculate_tilt_factor tilt o * inv *
        0.96 * 0.98 * 0.99 * 0.99 * sh ≤ 0.9128572992 := by
  obtain ⟨hof1, hof2⟩ := orientation_factor_bounds ori
  have htf1 := tilt_factor_lower tilt o
  have htf2 := tilt_factor_upper tilt o
  have hof0 : 0 ≤ orientation_factor_of ori := by linarith
  have htf0 : 0 ≤ calculate_tilt_factor tilt o := by linarith
  have hinv0 : (0 : ℚ) ≤ inv := by linarith
  constructor
  · apply mul_nonneg
    apply mul_nonneg
    apply mul_nonneg
    apply mul_nonneg
    apply mul_nonneg
    apply mul_nonneg
    apply mul_nonneg hof0 htf0
    all_goals first | exact hinv0 | exact hsh | norm_num
  · calc orientation_factor_of ori * calculate_tilt_factor tilt o * inv *
        0.96 * 0.98 * 0.99 * 0.99 * sh
        ≤ 1 * 1 * 0.99 * 0.96 * 0.98 * 0.99 * 0.99 * 1 := by
          gcongr
    _ = 0.9128572992 := by norm_num

/-- C3 as stated is false on two counts for inputs the schema admits:
with `shading_factor = 0` (allowed: `ge=0`) the capacity factor is 0 and
kWh/kWp is 0, so neither is strictly positive; and with an (unconstrained)
huge irradiance value the capacity factor exceeds 1. -/
theorem counterexample_C3 :
    (calculate_solar_output 4 ⟨51.5, -0.1,
        [2.5, 2.5, 2.5, 2.5, 2.5, 2.5, 2.5, 2.5, 2.5, 2.5, 2.5, 2.5], 913.125,
        "NASA_POWER"⟩ 51.5 ("south".toList) none 0 0.96).capacity_factor = 0 ∧
    (calculate_solar_output 4 ⟨51.5, -0.1,
        [2.5, 2.5, 2.5, 2.5, 2.5, 2.5, 2.5, 2.5, 2.5, 2.5, 2.5, 2.5], 913.125,
        "NASA_POWER"⟩ 51.5 ("south".toList) none 0 0.96).kwh_per_kwp = 0 ∧
    1 < (calculate_solar_output 0.5 ⟨51.5, -0.1,
        [2000, 0, 0, 0, 0, 0, 0, 0, 0, 0, 0, 0], 62000,
        "NASA_POWER"⟩ 51.5 ("south".toList) none 1 0.96).capacity_factor := by
  refine ⟨?_, ?_, ?_⟩
  · simp [calculate_solar_output, days_in_month, roundTo_zero]
  · simp [calculate_solar_output, days_in_month, roundTo_zero]
  · have hof : orientation_factor_of ("south".toList) = 1.00 := rfl
    have htf : calculate_tilt_factor
        ((none : Option ℚ).getD (calculate_optimal_tilt 51.5))
        (calculate_optimal_tilt 51.5) = 1 := tilt_factor_of_eq _
    simp only [calculate_solar_output, hof, htf]
    simp [days_in_month, roundTo_zero]
    norm_num [roundTo, pyRound]

/-- C3 (amended): for every well-formed solar input (capacity in [0.5, 50],
shading in [0, 1], inverter efficiency in [0.9, 0.99]) whose monthly
irradiances are physically bounded by [0, 24] kWh/m²/day, the capacity
factor equals `round(annual / (capacity × 8760), 4)` and lies in [0, 1)
(it is 0, not strictly positive, when the efficiency chain or irradiance
vanishes), and `kwh_per_kwp = round(annual / capacity, 1)` is
non-negative. -/
theorem C3_capacity_factor (capacity_kwp lat lon ann latitude : ℚ)
    (g : List ℚ) (src : String) (ori : List Char) (tiltOpt : Option ℚ)
    (shading inv : ℚ)
    (hcap : 0.5 ≤ capacity_kwp) (hcap2 : capacity_kwp ≤ 50)
    (hsh : 0 ≤ shading) (hsh2 : shading ≤ 1)
    (hinv : 0.9 ≤ inv) (hinv2 : inv ≤ 0.99)
    (hg : ∀ x ∈ g, 0 ≤ x ∧ x ≤ 24) :
    (calculate_solar_output capacity_kwp ⟨lat, lon, g, ann, src⟩ latitude ori
        tiltOpt shading inv).capacity_factor =
      roundTo 4 ((calculate_solar_output capacity_kwp ⟨lat, lon, g, ann, src⟩
          latitude ori tiltOpt shading inv).monthly_kwh.sum /
        (capacity_kwp * 8760)) ∧
    0 ≤ (calculate_solar_output capacity_kwp ⟨lat, lon, g, ann, src⟩ latitude
        ori tiltOpt shading inv).capacity_factor ∧
    (calculate_solar_output capacity_kwp ⟨lat, lon, g, ann, src⟩ latitude ori
        tiltOpt shading inv).capacity_factor < 1 ∧
    (calculate_solar_output capacity_kwp ⟨lat, lon, g, ann, src⟩ latitude ori
        tiltOpt shading inv).kwh_per_kwp =
      roundTo 1 ((calculate_solar_output capacity_kwp ⟨lat, lon, g, ann, src⟩
          latitude ori tiltOpt shading inv).monthly_kwh.sum / capacity_kwp) ∧
    0 ≤ (calculate_solar_output capacity_kwp ⟨lat, lon, g, ann, src⟩ latitude
        ori tiltOpt shading inv).kwh_per_kwp := by
  have hdays0 : ∀ d ∈ days_in_month, 0 ≤ d := by
    intro d hd
    fin_cases hd <;> norm_num
  have hcpos : (0 : ℚ) < capacity_kwp := by linarith
  have hc0 : (0 : ℚ) ≤ capacity_kwp := le_of_lt hcpos
  obtain ⟨hE0, hE1⟩ := system_efficiency_bounds ori
    (tiltOpt.getD (calculate_optimal_tilt latitude))
    (calculate_optimal_tilt latitude) inv shading hinv hinv2 hsh hsh2
  have hM : (calculate_solar_output capacity_kwp ⟨lat, lon, g, ann, src⟩
      latitude ori tiltOpt shading inv).monthly_kwh =
      (g.zip days_in_month).map (fun p => roundTo 2 (capacity_kwp * p.1 * p.2 *
        (orientation_factor_of ori *
          calculate_tilt_factor (tiltOpt.getD (calculate_optimal_tilt latitude))
            (calculate_optimal_tilt latitude) *
          inv * 0.96 * 0.98 * 0.99 * 0.99 * shading) * 0.85)) := rfl
  have hSnn : 0 ≤ (calculate_solar_output capacity_kwp ⟨lat, lon, g, ann, src⟩
      latitude ori tiltOpt shading inv).monthly_kwh.sum := by
    rw [hM]
    exact sum_round2_nonneg _ _ _ _ (fun x hx => (hg x hx).1) hdays0 hc0 hE0
  refine ⟨rfl, ?_, ?_, rfl, ?_⟩
  · show 0 ≤ roundTo 4 ((calculate_solar_output capacity_kwp
        ⟨lat, lon, g, ann, src⟩ latitude ori tiltOpt shading
        inv).monthly_kwh.sum / (capacity_kwp * 8760))
    apply roundTo_nonneg
    apply div_nonneg hSnn
    positivity
  · have hsum365 : days_in_month.sum = 365.25 := by norm_num [days_in_month]
    have hlen : ((days_in_month.length : ℚ)) = 12 := by
      norm_num [days_in_month]
    have hSle := sum_round2_le capacity_kwp
      (orientation_factor_of ori *
        calculate_tilt_factor (tiltOpt.getD (calculate_optimal_tilt latitude))
          (calculate_optimal_tilt latitude) *
        inv * 0.96 * 0.98 * 0.99 * 0.99 * shading) g days_in_month hg hdays0 hc0 hE0
    rw [hsum365, hlen] at hSle
    rw [← hM] at hSle
    set S := (calculate_solar_output capacity_kwp ⟨lat, lon, g, ann, src⟩
      latitude ori tiltOpt shading inv).monthly_kwh.sum with hSdef
    set cE := capacity_kwp *
      (orientation_factor_of ori *
        calculate_tilt_factor (tiltOpt.getD (calculate_optimal_tilt latitude))
          (calculate_optimal_tilt latitude) *
        inv * 0.96 * 0.98 * 0.99 * 0.99 * shading) with hcEdef
    have hcE : cE ≤ capacity_kwp * 0.9128572992 :=
      mul_le_mul_of_nonneg_left hE1 hc0
    have hA : S ≤ cE * 7451.1 + 0.06 := by
      have hexp : cE * 0.85 * 24 * 365.25 = cE * 7451.1 := by ring
      have h12 : (12 : ℚ) * (1/200) = 0.06 := by norm_num
      calc S ≤ cE * 0.85 * 24 * 365.25 + 12 * (1/200) := hSle
      _ = cE * 7451.1 + 0.06 := by rw [hexp, h12]
    have hpos : (0 : ℚ) < capacity_kwp * 8760 := by positivity
    show roundTo 4 (S / (capacity_kwp * 8760)) < 1
    have h9999 : roundTo 4 (S / (capacity_kwp * 8760)) ≤ ((9999 : ℤ) : ℚ) / 10 ^ 4 := by
      apply roundTo_le_div
      have hrw : S / (capacity_kwp * 8760) * 10 ^ 4 = S * 10 ^ 4 / (capacity_kwp * 8760) := by
        ring
      rw [hrw, div_lt_iff₀ hpos]
      have hexp2 : (((9999 : ℤ) : ℚ) + 1/2) * (capacity_kwp * 8760) =
          87595620 * capacity_kwp := by push_cast; ring
      rw [hexp2]
      have hB : cE * 7451.1 ≤ (capacity_kwp * 0.9128572992) * 7451.1 :=
        mul_le_mul_of_nonneg_right hcE (by norm_num)
      have hC : (capacity_kwp * 0.9128572992) * 7451.1 =
          capacity_kwp * 6801.79102206912 := by ring
      have hS4 : S * 10 ^ 4 ≤ (capacity_kwp * 6801.79102206912 + 0.06) * 10 ^ 4 := by
        have : S ≤ capacity_kwp * 6801.79102206912 + 0.06 := by linarith
        nlinarith [this]
      nlinarith [hS4, hcap]
    calc roundTo 4 (S / (capacity_kwp * 8760)) ≤ ((9999 : ℤ) : ℚ) / 10 ^ 4 := h9999
    _ < 1 := by norm_num
  · show 0 ≤ roundTo 1 ((calculate_solar_output capacity_kwp
        ⟨lat, lon, g, ann, src⟩ latitude ori tiltOpt shading
        inv).monthly_kwh.sum / capacity_kwp)
    apply roundTo_nonneg
    exact div_nonneg hSnn hc0

/-- Witness for C3 (amended): a nominal 4 kWp south-facing system with a
uniform 2.5 kWh/m²/day climatology has capacity factor in [0, 1) and
non-negative specific yield. -/
theorem C3_capacity_factor_witness :
    (calculate_solar_output 4 ⟨51.5, -0.1,
        [2.5, 2.5, 2.5, 2.5, 2.5, 2.5, 2.5, 2.5, 2.5, 2.5, 2.5, 2.5], 913.125,
        "NASA_POWER"⟩ 51.5 ("south".toList) none 1 0.96).capacity_factor =
      roundTo 4 ((calculate_solar_output 4 ⟨51.5, -0.1,
        [2.5, 2.5, 2.5, 2.5, 2.5, 2.5, 2.5, 2.5, 2.5, 2.5, 2.5, 2.5], 913.125,
        "NASA_POWER"⟩ 51.5 ("south".toList) none 1 0.96).monthly_kwh.sum /
        (4 * 8760)) ∧
    0 ≤ (calculate_solar_output 4 ⟨51.5, -0.1,
        [2.5, 2.5, 2.5, 2.5, 2.5, 2.5, 2.5, 2.5, 2.5, 2.5, 2.5, 2.5], 913.125,
        "NASA_POWER"⟩ 51.5 ("south".toList) none 1 0.96).capacity_factor ∧
    (calculate_solar_output 4 ⟨51.5, -0.1,
        [2.5, 2.5, 2.5, 2.5, 2.5, 2.5, 2.5, 2.5, 2.5, 2.5, 2.5, 2.5], 913.125,
        "NASA_POWER"⟩ 51.5 ("south".toList) none 1 0.96).capacity_factor < 1 ∧
    (calculate_solar_output 4 ⟨51.5, -0.1,
        [2.5, 2.5, 2.5, 2.5, 2.5, 2.5, 2.5, 2.5, 2.5, 2.5, 2.5, 2.5], 913.125,
        "NASA_POWER"⟩ 51.5 ("south".toList) none 1 0.96).kwh_per_kwp =
      roundTo 1 ((calculate_solar_output 4 ⟨51.5, -0.1,
        [2.5, 2.5, 2.5, 2.5, 2.5, 2.5, 2.5, 2.5, 2.5, 2.5, 2.5, 2.5], 913.125,
        "NASA_POWER"⟩ 51.5 ("south".toList) none 1 0.96).monthly_kwh.sum / 4) ∧
    0 ≤ (calculate_solar_output 4 ⟨51.5, -0.1,
        [2.5, 2.5, 2.5, 2.5, 2.5, 2.5, 2.5, 2.5, 2.5, 2.5, 2.5, 2.5], 913.125,
        "NASA_POWER"⟩ 51.5 ("south".toList) none 1 0.96).kwh_per_kwp :=
  C3_capacity_factor 4 51.5 (-0.1) 913.125 51.5
    [2.5, 2.5, 2.5, 2.5, 2.5, 2.5, 2.5, 2.5, 2.5, 2.5, 2.5, 2.5] "NASA_POWER"
    ("south".toList) none 1 0.96 (by norm_num) (by norm_num) (by norm_num)
    (by norm_num) (by norm_num) (by norm_num)
    (by intro x hx; fin_cases hx <;> norm_num)

end RF
